import Mathlib

/-
Verification of the Kalshi hourly BTC signal generator.

Shallow embedding of the pure computational core of the repository:
  - src/src/engines/edge-kalshi.js   (computeEdge, decide)
  - src/src/index-kalshi.js          (countVwapCrosses)
  - the Kalshi client's summarizeOrderBook
  - the Coinbase client's fetchKlines candle transform

JavaScript numbers are modelled as exact rationals (ℚ); nullable values as
Option; a JavaScript value that may fail numeric coercion as JSVal, with
toNumber mirroring the source's helper (Number(x) guarded by isFinite).
-/

namespace Kalshi

/-- A JavaScript value fed to the source's toNumber helper: either it coerces
to a finite number or it does not (non-numeric strings, undefined, NaN). -/
inductive JSVal where
  | num (q : ℚ)
  | nonNum
deriving DecidableEq, Repr

/-- toNumber from the Kalshi client and the Coinbase client:
Number(x) returning null when the result is not finite. -/
def toNumber : JSVal → Option ℚ
  | .num q => some q
  | .nonNum => none

/-- Modelled from the spec: clamp from src/utils.js is absent from the
sources; the spec says market probabilities are "clamped to [0,1]", the
usual min(max(x, lo), hi). -/
def clamp (x lo hi : ℚ) : ℚ := min (max x lo) hi

/-! ## src/src/engines/edge-kalshi.js : computeEdge -/

structure EdgeInput where
  modelUp : ℚ
  modelDown : ℚ
  marketYes : Option ℚ
  marketNo : Option ℚ
deriving DecidableEq, Repr

structure EdgeResult where
  marketUp : Option ℚ
  marketDown : Option ℚ
  edgeUp : Option ℚ
  edgeDown : Option ℚ
deriving DecidableEq, Repr

/-- computeEdge: if either market side is null, everything is null; otherwise
the edges are model minus the (unclamped) market quotes, and the returned
marketUp/marketDown are the quotes clamped to [0,1]. -/
def computeEdge (inp : EdgeInput) : EdgeResult :=
  match inp.marketYes, inp.marketNo with
  | some my, some mn =>
      let marketUp := my
      let marketDown := mn
      let edgeUp := inp.modelUp - marketUp
      let edgeDown := inp.modelDown - marketDown
      { marketUp := some (clamp marketUp 0 1)
        marketDown := some (clamp marketDown 0 1)
        edgeUp := some edgeUp
        edgeDown := some edgeDown }
  | _, _ => { marketUp := none, marketDown := none, edgeUp := none, edgeDown := none }

/-! ## src/src/engines/edge-kalshi.js : decide -/

inductive Phase where
  | EARLY
  | MID
  | LATE
deriving DecidableEq, Repr

inductive Side where
  | UP
  | DOWN
deriving DecidableEq, Repr

inductive Action where
  | ENTER
  | NO_TRADE
deriving DecidableEq, Repr

inductive Strength where
  | STRONG
  | GOOD
  | OPTIONAL
deriving DecidableEq, Repr

/-- The reason string of a NO_TRADE decision; the template literals
edge_below_${threshold} and prob_below_${minProb} carry the numeric bound. -/
inductive Reason where
  | missing_market_data
  | edge_below (threshold : ℚ)
  | prob_below (minProb : ℚ)
deriving DecidableEq, Repr

structure DecideInput where
  remainingMinutes : ℚ
  edgeUp : Option ℚ
  edgeDown : Option ℚ
  modelUp : Option ℚ := none
  modelDown : Option ℚ := none
deriving DecidableEq, Repr

/-- The decision object; fields a branch does not set are none. -/
structure Decision where
  action : Action
  side : Option Side
  phase : Phase
  reason : Option Reason := none
  strength : Option Strength := none
  edge : Option ℚ := none
  edgeUp : Option ℚ
  edgeDown : Option ℚ
deriving DecidableEq, Repr

/-- Phase from remaining minutes: EARLY above 40, MID above 20, else LATE. -/
def phaseOf (remainingMinutes : ℚ) : Phase :=
  if remainingMinutes > 40 then .EARLY else if remainingMinutes > 20 then .MID else .LATE

/-- Edge threshold by phase. -/
def thresholdOf : Phase → ℚ
  | .EARLY => 0.05
  | .MID => 0.1
  | .LATE => 0.2

/-- Minimum model probability by phase. -/
def minProbOf : Phase → ℚ
  | .EARLY => 0.55
  | .MID => 0.6
  | .LATE => 0.65

/-- bestSide = UP if edgeUp > edgeDown else DOWN. -/
def bestSideOf (eu ed : ℚ) : Side := if eu > ed then .UP else .DOWN

/-- bestEdge follows bestSide. -/
def bestEdgeOf (eu ed : ℚ) : ℚ := if bestSideOf eu ed = .UP then eu else ed

/-- bestModel follows bestSide. -/
def bestModelOf (eu ed : ℚ) (modelUp modelDown : Option ℚ) : Option ℚ :=
  if bestSideOf eu ed = .UP then modelUp else modelDown

/-- The decision gate of edge-kalshi.js. The source's
`bestModel !== null && bestModel < minProb` test is the match on bestModel. -/
def decide (inp : DecideInput) : Decision :=
  let phase := phaseOf inp.remainingMinutes
  let threshold := thresholdOf phase
  let minProb := minProbOf phase
  match inp.edgeUp, inp.edgeDown with
  | some eu, some ed =>
      let bestSide := bestSideOf eu ed
      let bestEdge := bestEdgeOf eu ed
      let bestModel := bestModelOf eu ed inp.modelUp inp.modelDown
      if bestEdge < threshold then
        { action := .NO_TRADE, side := none, phase := phase
          reason := some (.edge_below threshold), edgeUp := some eu, edgeDown := some ed }
      else
        let enter : Decision :=
          { action := .ENTER, side := some bestSide, phase := phase
            strength := some (if bestEdge ≥ 0.2 then .STRONG
                              else if bestEdge ≥ 0.1 then .GOOD else .OPTIONAL)
            edge := some bestEdge, edgeUp := some eu, edgeDown := some ed }
        match bestModel with
        | some m =>
            if m < minProb then
              { action := .NO_TRADE, side := none, phase := phase
                reason := some (.prob_below minProb), edgeUp := some eu, edgeDown := some ed }
            else enter
        | none => enter
  | _, _ =>
      { action := .NO_TRADE, side := none, phase := phase
        reason := some .missing_market_data, edgeUp := none, edgeDown := none }

/-! ## src/src/index-kalshi.js : countVwapCrosses -/

/-- JavaScript subtraction where an out-of-bounds array read gives undefined
and undefined - x is NaN; none plays NaN (every comparison with it false). -/
def jsSub : Option ℚ → Option ℚ → Option ℚ
  | some a, some b => some (a - b)
  | _, _ => none

/-- One loop iteration of countVwapCrosses: does index i record a cross?
prev === 0 (continue) only matters for a genuine number; NaN comparisons
are all false. -/
def crossAt (closes vwapSeries : List ℚ) (i : ℕ) : Bool :=
  let prev := jsSub (closes.get? (i - 1)) (vwapSeries.get? (i - 1))
  let cur := jsSub (closes.get? i) (vwapSeries.get? i)
  match prev, cur with
  | some p, some c =>
      if p = 0 then false
      else if (p > 0 ∧ c < 0) ∨ (p < 0 ∧ c > 0) then true else false
  | _, _ => false

/-- The loop of countVwapCrosses runs i from closes.length - lookback + 1 to
closes.length - 1 inclusive: that is lookback - 1 iterations. -/
def vwapLoopIndices (closesLen lookback : ℕ) : List ℕ :=
  List.range' (closesLen - lookback + 1) (lookback - 1)

/-- countVwapCrosses from src/src/index-kalshi.js. -/
def countVwapCrosses (closes vwapSeries : List ℚ) (lookback : ℕ) : Option ℕ :=
  if closes.length < lookback ∨ vwapSeries.length < lookback then none
  else some ((vwapLoopIndices closes.length lookback).countP (crossAt closes vwapSeries))

/-- Every array read the countVwapCrosses loop performs is inside both arrays. -/
def vwapReadsInBounds (closes vwapSeries : List ℚ) (lookback : ℕ) : Prop :=
  ∀ i ∈ vwapLoopIndices closes.length lookback,
    i - 1 < closes.length ∧ i < closes.length ∧
    i - 1 < vwapSeries.length ∧ i < vwapSeries.length

/-! ## the Kalshi client : summarizeOrderBook -/

/-- An order-book level [price, size] as the source indexes it. -/
structure BookEntry where
  price : JSVal
  size : JSVal
deriving DecidableEq, Repr

/-- book?.yes / book?.no before the Array.isArray guard: none models a
missing or non-array side, which the source replaces with []. -/
structure OrderBook where
  yes : Option (List BookEntry)
  no : Option (List BookEntry)
deriving DecidableEq, Repr

structure SideSummary where
  bestBid : Option ℚ
  bestAsk : Option ℚ
  spread : Option ℚ
  bidLiquidity : ℚ
  askLiquidity : ℚ
deriving DecidableEq, Repr

structure BookSummary where
  yes : SideSummary
  no : SideSummary
deriving DecidableEq, Repr

/-- Liquidity of one side: bids.slice(0, depthLevels).reduce(
(acc, x) => acc + (toNumber(x[1]) ?? 0), 0). -/
def liquidityOf (bids : List BookEntry) (depthLevels : ℕ) : ℚ :=
  (bids.take depthLevels).foldl (fun acc x => acc + (toNumber x.size).getD 0) 0

/-- Best "bid"/"ask" of one side as the source reads them: level 0 and level 1
of the same bid array. -/
def bestAtLevel (bids : List BookEntry) (level : ℕ) : Option ℚ :=
  match bids.get? level with
  | some e => toNumber e.price
  | none => none

/-- summarizeOrderBook from the Kalshi client. -/
def summarizeOrderBook (book : OrderBook) (depthLevels : ℕ := 5) : BookSummary :=
  let yesBids := book.yes.getD []
  let noBids := book.no.getD []
  let bestYesBid := bestAtLevel yesBids 0
  let bestNoBid := bestAtLevel noBids 0
  let bestYesAsk := bestAtLevel yesBids 1
  let bestNoAsk := bestAtLevel noBids 1
  let yesSpread := match bestYesBid, bestYesAsk with
    | some b, some a => some (a - b)
    | _, _ => none
  let noSpread := match bestNoBid, bestNoAsk with
    | some b, some a => some (a - b)
    | _, _ => none
  let yesLiquidity := liquidityOf yesBids depthLevels
  let noLiquidity := liquidityOf noBids depthLevels
  { yes := { bestBid := bestYesBid, bestAsk := bestYesAsk, spread := yesSpread
             bidLiquidity := yesLiquidity, askLiquidity := yesLiquidity }
    no := { bestBid := bestNoBid, bestAsk := bestNoAsk, spread := noSpread
            bidLiquidity := noLiquidity, askLiquidity := noLiquidity } }

/-! ## the Coinbase client : fetchKlines candle transform -/

/-- The interval-to-granularity map of fetchKlines; none models a key
absent from the object literal. -/
def granularityMap (interval : String) : Option ℕ :=
  if interval = "1m" then some 60
  else if interval = "3m" then some 180
  else if interval = "5m" then some 300
  else if interval = "15m" then some 900
  else if interval = "1h" then some 3600
  else if interval = "1d" then some 86400
  else none

def validGranularities : List ℕ := [60, 300, 900, 3600, 21600, 86400]

/-- granularity = granularityMap[interval] || 60, then reset to 60 when not in
the valid list; every map value is nonzero so || coincides with getD. -/
def granularityOf (interval : String) : ℕ :=
  let g := (granularityMap interval).getD 60
  if g ∈ validGranularities then g else 60

/-- A raw Coinbase candle row [timestamp, low, high, open, close, volume];
the source converts the timestamp with a bare Number(), the prices and the
volume with toNumber. -/
structure RawCandle where
  ts : ℚ
  low : JSVal
  high : JSVal
  openP : JSVal
  close : JSVal
  volume : JSVal
deriving DecidableEq, Repr

structure Candle where
  openTime : ℚ
  openP : Option ℚ
  high : Option ℚ
  low : Option ℚ
  close : Option ℚ
  volume : Option ℚ
  closeTime : ℚ
deriving DecidableEq, Repr

/-- The per-row transform inside fetchKlines. -/
def toCandle (granularity : ℚ) (candle : RawCandle) : Candle :=
  { openTime := candle.ts * 1000
    openP := toNumber candle.openP
    high := toNumber candle.high
    low := toNumber candle.low
    close := toNumber candle.close
    volume := toNumber candle.volume
    closeTime := (candle.ts + granularity) * 1000 }

/-- data.map(toCandle).reverse() : Coinbase returns newest first, the series
is flipped to oldest first. -/
def fetchKlinesTransform (granularity : ℚ) (data : List RawCandle) : List Candle :=
  (data.map (toCandle granularity)).reverse

/-- The sum of the sizes of the first depthLevels bid entries of one side,
non-numeric sizes counting as 0; spec-side phrasing of the liquidity sum. -/
def sumOfFirstSizes (bids : List BookEntry) (depthLevels : ℕ) : ℚ :=
  ((bids.take depthLevels).map (fun e => (toNumber e.size).getD 0)).sum

/-- Two concrete raw Coinbase rows, newest first. -/
def sampleRawCandles : List RawCandle :=
  [⟨2, .num 10, .num 20, .num 12, .num 18, .nonNum⟩,
   ⟨1, .num 11, .num 19, .num 13, .num 17, .num 5⟩]

/-! ## Helper lemmas -/

theorem phaseOf_spec (m : ℚ) :
    (phaseOf m = .EARLY ↔ 40 < m) ∧ (phaseOf m = .MID ↔ 20 < m ∧ m ≤ 40) ∧
    (phaseOf m = .LATE ↔ m ≤ 20) := by
  unfold phaseOf
  split_ifs with h1 h2 <;> refine ⟨?_, ?_, ?_⟩ <;> simp <;>
    first
      | linarith
      | (intro h; linarith)
      | (constructor <;> linarith)

theorem decide_phase_eq (inp : DecideInput) :
    (Kalshi.decide inp).phase = phaseOf inp.remainingMinutes := by
  obtain ⟨m, eU, eD, mU, mD⟩ := inp
  unfold Kalshi.decide
  cases eU <;> cases eD <;> first
    | rfl
    | (dsimp only
       split
       · rfl
       · split <;> split_ifs <;> rfl)

theorem foldl_add_eq_sum (f : BookEntry → ℚ) (l : List BookEntry) (init : ℚ) :
    l.foldl (fun acc x => acc + f x) init = init + (l.map f).sum := by
  induction l generalizing init with
  | nil => simp
  | cons a t ih => simp [ih, add_assoc]

theorem decide_some (m eu ed : ℚ) (mU mD : Option ℚ) :
    Kalshi.decide ⟨m, some eu, some ed, mU, mD⟩ =
      (if bestEdgeOf eu ed < thresholdOf (phaseOf m) then
        { action := .NO_TRADE, side := none, phase := phaseOf m,
          reason := some (.edge_below (thresholdOf (phaseOf m))),
          edgeUp := some eu, edgeDown := some ed }
      else
        match bestModelOf eu ed mU mD with
        | some p =>
            if p < minProbOf (phaseOf m) then
              { action := .NO_TRADE, side := none, phase := phaseOf m,
                reason := some (.prob_below (minProbOf (phaseOf m))),
                edgeUp := some eu, edgeDown := some ed }
            else
              { action := .ENTER, side := some (bestSideOf eu ed), phase := phaseOf m
                strength := some (if bestEdgeOf eu ed ≥ 0.2 then .STRONG
                                  else if bestEdgeOf eu ed ≥ 0.1 then .GOOD else .OPTIONAL)
                edge := some (bestEdgeOf eu ed), edgeUp := some eu, edgeDown := some ed }
        | none =>
            { action := .ENTER, side := some (bestSideOf eu ed), phase := phaseOf m
              strength := some (if bestEdgeOf eu ed ≥ 0.2 then .STRONG
                                else if bestEdgeOf eu ed ≥ 0.1 then .GOOD else .OPTIONAL)
              edge := some (bestEdgeOf eu ed), edgeUp := some eu, edgeDown := some ed }) := rfl

theorem decide_action_enter_iff (m eu ed : ℚ) (mU mD : Option ℚ) :
    (Kalshi.decide ⟨m, some eu, some ed, mU, mD⟩).action = .ENTER ↔
      thresholdOf (phaseOf m) ≤ bestEdgeOf eu ed ∧
      ∀ p, bestModelOf eu ed mU mD = some p → minProbOf (phaseOf m) ≤ p := by
  rw [decide_some]
  by_cases h : bestEdgeOf eu ed < thresholdOf (phaseOf m)
  · rw [if_pos h]
    constructor
    · intro hc; simp at hc
    · rintro ⟨hth, -⟩; linarith
  · rw [if_neg h]
    rcases hbm : bestModelOf eu ed mU mD with _ | p <;> dsimp only
    · simp
      linarith
    · by_cases h2 : p < minProbOf (phaseOf m)
      · rw [if_pos h2]
        constructor
        · intro hc; simp at hc
        · rintro ⟨-, hall⟩
          have := hall p rfl
          linarith
      · rw [if_neg h2]
        simp
        exact ⟨by linarith, by linarith⟩

theorem decide_enter_fields (m eu ed : ℚ) (mU mD : Option ℚ)
    (h : (Kalshi.decide ⟨m, some eu, some ed, mU, mD⟩).action = .ENTER) :
    (Kalshi.decide ⟨m, some eu, some ed, mU, mD⟩).side = some (bestSideOf eu ed) ∧
    (Kalshi.decide ⟨m, some eu, some ed, mU, mD⟩).strength =
      some (if bestEdgeOf eu ed ≥ 0.2 then .STRONG
            else if bestEdgeOf eu ed ≥ 0.1 then .GOOD else .OPTIONAL) := by
  obtain ⟨hth, hall⟩ := (decide_action_enter_iff m eu ed mU mD).1 h
  rw [decide_some, if_neg (not_lt.2 hth)]
  rcases hbm : bestModelOf eu ed mU mD with _ | p <;> dsimp only
  · exact ⟨rfl, rfl⟩
  · rw [if_neg (not_lt.2 (hall p hbm))]
    exact ⟨rfl, rfl⟩

end Kalshi

/-! ## Claim theorems (continued below after the first group) -/

/-- C2: with both edges known the gate picks bestSide (ties to DOWN), rejects
on the phase edge threshold with an edge_below reason, then on the phase
model-probability floor with a prob_below reason, else enters on bestSide. -/
theorem c2_decision_gate (inp : Kalshi.DecideInput) (eu ed : ℚ)
    (h1 : inp.edgeUp = some eu) (h2 : inp.edgeDown = some ed) :
    Kalshi.bestSideOf eu ed = (if eu > ed then .UP else .DOWN) ∧
    (Kalshi.bestEdgeOf eu ed < Kalshi.thresholdOf (Kalshi.phaseOf inp.remainingMinutes) →
      Kalshi.decide inp =
        { action := .NO_TRADE, side := none, phase := Kalshi.phaseOf inp.remainingMinutes,
          reason := some (.edge_below (Kalshi.thresholdOf (Kalshi.phaseOf inp.remainingMinutes))),
          edgeUp := some eu, edgeDown := some ed }) ∧
    (¬ Kalshi.bestEdgeOf eu ed < Kalshi.thresholdOf (Kalshi.phaseOf inp.remainingMinutes) →
      ∀ p, Kalshi.bestModelOf eu ed inp.modelUp inp.modelDown = some p →
        p < Kalshi.minProbOf (Kalshi.phaseOf inp.remainingMinutes) →
        Kalshi.decide inp =
          { action := .NO_TRADE, side := none, phase := Kalshi.phaseOf inp.remainingMinutes,
            reason := some (.prob_below (Kalshi.minProbOf (Kalshi.phaseOf inp.remainingMinutes))),
            edgeUp := some eu, edgeDown := some ed }) ∧
    (¬ Kalshi.bestEdgeOf eu ed < Kalshi.thresholdOf (Kalshi.phaseOf inp.remainingMinutes) →
      (∀ p, Kalshi.bestModelOf eu ed inp.modelUp inp.modelDown = some p →
        ¬ p < Kalshi.minProbOf (Kalshi.phaseOf inp.remainingMinutes)) →
      (Kalshi.decide inp).action = .ENTER ∧
      (Kalshi.decide inp).side = some (Kalshi.bestSideOf eu ed)) := by
  obtain ⟨m, eU, eD, mU, mD⟩ := inp
  dsimp only at h1 h2 ⊢
  subst h1 h2
  refine ⟨rfl, ?_, ?_, ?_⟩
  · intro h
    rw [Kalshi.decide_some, if_pos h]
  · intro h p hp hlt
    rw [Kalshi.decide_some, if_neg h, hp]
    dsimp only
    rw [if_pos hlt]
  · intro h hall
    rw [Kalshi.decide_some, if_neg h]
    rcases hbm : Kalshi.bestModelOf eu ed mU mD with _ | p <;> dsimp only
    · exact ⟨rfl, rfl⟩
    · rw [if_neg (hall p hbm)]
      exact ⟨rfl, rfl⟩

/-- C2 witness: a concrete below-threshold input rejected with edge_below. -/
theorem c2_witness :
    (⟨45, some 0, some (-1), none, none⟩ : Kalshi.DecideInput).edgeUp = some 0 ∧
    (⟨45, some 0, some (-1), none, none⟩ : Kalshi.DecideInput).edgeDown = some (-1) ∧
    Kalshi.decide ⟨45, some 0, some (-1), none, none⟩ =
      { action := .NO_TRADE, side := none, phase := .EARLY,
        reason := some (.edge_below 0.05), edgeUp := some 0, edgeDown := some (-1) } := by
  refine ⟨rfl, rfl, ?_⟩
  have h := (c2_decision_gate ⟨45, some 0, some (-1), none, none⟩ 0 (-1) rfl rfl).2.1
  have hc : Kalshi.bestEdgeOf 0 (-1) < Kalshi.thresholdOf (Kalshi.phaseOf (45 : ℚ)) := by
    norm_num [Kalshi.bestEdgeOf, Kalshi.bestSideOf, Kalshi.phaseOf, Kalshi.thresholdOf]
  rw [h hc]
  norm_num [Kalshi.phaseOf, Kalshi.thresholdOf]

/-- C5: every ENTER decision carries side = bestSide and strength STRONG for
bestEdge ≥ 0.20, GOOD for bestEdge ≥ 0.10, OPTIONAL below. -/
theorem c5_enter_strength (inp : Kalshi.DecideInput)
    (h : (Kalshi.decide inp).action = .ENTER) :
    ∃ eu ed, inp.edgeUp = some eu ∧ inp.edgeDown = some ed ∧
      (Kalshi.decide inp).side = some (Kalshi.bestSideOf eu ed) ∧
      (Kalshi.decide inp).strength =
        some (if Kalshi.bestEdgeOf eu ed ≥ 0.2 then .STRONG
              else if Kalshi.bestEdgeOf eu ed ≥ 0.1 then .GOOD else .OPTIONAL) := by
  obtain ⟨m, eU, eD, mU, mD⟩ := inp
  rcases eU with _ | eu
  · cases eD <;> simp [Kalshi.decide] at h
  rcases eD with _ | ed
  · simp [Kalshi.decide] at h
  obtain ⟨hs, hst⟩ := Kalshi.decide_enter_fields m eu ed mU mD h
  exact ⟨eu, ed, rfl, rfl, hs, hst⟩

/-- C5 witness: a concrete STRONG entry. -/
theorem c5_witness :
    (Kalshi.decide ⟨10, some 0.25, some 0, some 0.7, none⟩).action = .ENTER ∧
    ∃ eu ed,
      (⟨10, some 0.25, some 0, some 0.7, none⟩ : Kalshi.DecideInput).edgeUp = some eu ∧
      (⟨10, some 0.25, some 0, some 0.7, none⟩ : Kalshi.DecideInput).edgeDown = some ed ∧
      (Kalshi.decide ⟨10, some 0.25, some 0, some 0.7, none⟩).side =
        some (Kalshi.bestSideOf eu ed) ∧
      (Kalshi.decide ⟨10, some 0.25, some 0, some 0.7, none⟩).strength =
        some (if Kalshi.bestEdgeOf eu ed ≥ 0.2 then .STRONG
              else if Kalshi.bestEdgeOf eu ed ≥ 0.1 then .GOOD else .OPTIONAL) := by
  have h : (Kalshi.decide ⟨10, some 0.25, some 0, some 0.7, none⟩).action = .ENTER := by
    unfold Kalshi.decide
    norm_num [Kalshi.phaseOf, Kalshi.thresholdOf, Kalshi.minProbOf, Kalshi.bestSideOf,
      Kalshi.bestEdgeOf, Kalshi.bestModelOf]
  exact ⟨h, c5_enter_strength ⟨10, some 0.25, some 0, some 0.7, none⟩ h⟩

/-- C7: the gate is monotonic in phase: an ENTER in the LATE range stays an
ENTER at any remaining time above 20 minutes (MID and EARLY), the edges and
model probabilities held fixed. -/
theorem c7_phase_monotonic (mLate mOther eu ed : ℚ) (mU mD : Option ℚ)
    (hL : mLate ≤ 20) (hO : 20 < mOther)
    (hE : (Kalshi.decide ⟨mLate, some eu, some ed, mU, mD⟩).action = .ENTER) :
    (Kalshi.decide ⟨mOther, some eu, some ed, mU, mD⟩).action = .ENTER := by
  have hpl : Kalshi.phaseOf mLate = .LATE := by
    unfold Kalshi.phaseOf
    rw [if_neg (by linarith), if_neg (by linarith)]
  obtain ⟨hth, hall⟩ := (Kalshi.decide_action_enter_iff mLate eu ed mU mD).1 hE
  rw [hpl] at hth hall
  have h02 : (0.2 : ℚ) ≤ Kalshi.bestEdgeOf eu ed := by
    simpa [Kalshi.thresholdOf] using hth
  refine (Kalshi.decide_action_enter_iff mOther eu ed mU mD).2 ⟨?_, ?_⟩
  · unfold Kalshi.phaseOf
    split_ifs <;> simp [Kalshi.thresholdOf] <;> linarith
  · intro p hp
    have h65 : (0.65 : ℚ) ≤ p := by
      simpa [Kalshi.minProbOf] using hall p hp
    unfold Kalshi.phaseOf
    split_ifs <;> simp [Kalshi.minProbOf] <;> linarith

/-- C7 witness: a LATE entry that persists at 45 minutes remaining. -/
theorem c7_witness :
    (10 : ℚ) ≤ 20 ∧ (20 : ℚ) < 45 ∧
    (Kalshi.decide ⟨10, some 0.3, some 0, some 0.7, some 0.2⟩).action = .ENTER ∧
    (Kalshi.decide ⟨45, some 0.3, some 0, some 0.7, some 0.2⟩).action = .ENTER := by
  have hE : (Kalshi.decide ⟨10, some 0.3, some 0, some 0.7, some 0.2⟩).action = .ENTER := by
    unfold Kalshi.decide
    norm_num [Kalshi.phaseOf, Kalshi.thresholdOf, Kalshi.minProbOf, Kalshi.bestSideOf,
      Kalshi.bestEdgeOf, Kalshi.bestModelOf]
  exact ⟨by norm_num, by norm_num, hE,
    c7_phase_monotonic 10 45 0.3 0 (some 0.7) (some 0.2) (by norm_num) (by norm_num) hE⟩

/-! ## Claim theorems -/

/-- C3: decide assigns phase EARLY exactly when remainingMinutes > 40, MID
exactly when 20 < remainingMinutes ≤ 40, LATE exactly when
remainingMinutes ≤ 20; 40 is MID and 20 is LATE. -/
theorem c3_phase_boundaries (inp : Kalshi.DecideInput) :
    ((Kalshi.decide inp).phase = .EARLY ↔ 40 < inp.remainingMinutes) ∧
    ((Kalshi.decide inp).phase = .MID ↔
      20 < inp.remainingMinutes ∧ inp.remainingMinutes ≤ 40) ∧
    ((Kalshi.decide inp).phase = .LATE ↔ inp.remainingMinutes ≤ 20) := by
  rw [Kalshi.decide_phase_eq]
  exact Kalshi.phaseOf_spec inp.remainingMinutes

/-- C4: when either edge is null, decide returns a NO_TRADE decision with
side null, the computed phase, reason missing_market_data and null edges. -/
theorem c4_missing_market_data (inp : Kalshi.DecideInput)
    (h : inp.edgeUp = none ∨ inp.edgeDown = none) :
    Kalshi.decide inp =
      { action := .NO_TRADE, side := none, phase := Kalshi.phaseOf inp.remainingMinutes,
        reason := some .missing_market_data, edgeUp := none, edgeDown := none } := by
  obtain ⟨m, eU, eD, mU, mD⟩ := inp
  unfold Kalshi.decide
  rcases h with h | h <;> simp_all

/-- C4 witness: a concrete missing-edge input. -/
theorem c4_witness :
    ((⟨30, none, some 0.3, none, none⟩ : Kalshi.DecideInput).edgeUp = none ∨
      (⟨30, none, some 0.3, none, none⟩ : Kalshi.DecideInput).edgeDown = none) ∧
    Kalshi.decide ⟨30, none, some 0.3, none, none⟩ =
      { action := .NO_TRADE, side := none, phase := .MID,
        reason := some .missing_market_data, edgeUp := none, edgeDown := none } := by
  refine ⟨Or.inl rfl, ?_⟩
  have h := c4_missing_market_data ⟨30, none, some 0.3, none, none⟩ (Or.inl rfl)
  rw [h]
  norm_num [Kalshi.phaseOf]

/-- C6 counterexample: on the spec's scenario the code classifies strength
GOOD (the 0.18 edge is below the 0.20 STRONG cut), so the claimed outcome
with strength STRONG is false. -/
theorem c6_counterexample :
    ¬ ((Kalshi.decide ⟨45, some 0.18, some (-0.15), some 0.68, some 0.32⟩).phase = .EARLY ∧
       (Kalshi.decide ⟨45, some 0.18, some (-0.15), some 0.68, some 0.32⟩).action = .ENTER ∧
       (Kalshi.decide ⟨45, some 0.18, some (-0.15), some 0.68, some 0.32⟩).side = some .UP ∧
       (Kalshi.decide ⟨45, some 0.18, some (-0.15), some 0.68, some 0.32⟩).strength =
         some .STRONG) := by
  have h : Kalshi.decide ⟨45, some 0.18, some (-0.15), some 0.68, some 0.32⟩ =
      { action := .ENTER, side := some .UP, phase := .EARLY, strength := some .GOOD,
        edge := some 0.18, edgeUp := some 0.18, edgeDown := some (-0.15) } := by
    unfold Kalshi.decide
    norm_num [Kalshi.phaseOf, Kalshi.thresholdOf, Kalshi.minProbOf, Kalshi.bestSideOf,
      Kalshi.bestEdgeOf, Kalshi.bestModelOf]
  rw [h]
  rintro ⟨-, -, -, hs⟩
  simp at hs

/-- C6 amended: the spec scenario yields phase EARLY, action ENTER, side UP,
but strength GOOD (edge 0.18 is in [0.10, 0.20)). -/
theorem c6_amended :
    Kalshi.decide ⟨45, some 0.18, some (-0.15), some 0.68, some 0.32⟩ =
      { action := .ENTER, side := some .UP, phase := .EARLY, strength := some .GOOD,
        edge := some 0.18, edgeUp := some 0.18, edgeDown := some (-0.15) } := by
  unfold Kalshi.decide
  norm_num [Kalshi.phaseOf, Kalshi.thresholdOf, Kalshi.minProbOf, Kalshi.bestSideOf,
    Kalshi.bestEdgeOf, Kalshi.bestModelOf]

/-- C1 counterexample: at marketYes = 1.5 the returned marketUp is the quote
clamped to 1 but the returned edgeUp is modelUp minus the unclamped 1.5, so
the claimed identity edgeUp = modelUp - marketUp (the returned, clamped
marketUp) fails. -/
theorem c1_counterexample :
    (Kalshi.computeEdge ⟨0.5, 0.5, some 1.5, some 0.5⟩).marketUp =
      some (Kalshi.clamp 1.5 0 1) ∧
    (Kalshi.computeEdge ⟨0.5, 0.5, some 1.5, some 0.5⟩).edgeUp ≠
      some ((0.5 : ℚ) - Kalshi.clamp 1.5 0 1) := by
  unfold Kalshi.computeEdge Kalshi.clamp
  norm_num

/-- C1 amended: computeEdge is all-null iff either market side is null;
otherwise marketUp/marketDown are the quotes clamped to [0,1] while the
edges subtract the unclamped quotes: edgeUp = modelUp - marketYes and
edgeDown = modelDown - marketNo. -/
theorem c1_amended (inp : Kalshi.EdgeInput) :
    (Kalshi.computeEdge inp = ⟨none, none, none, none⟩ ↔
      inp.marketYes = none ∨ inp.marketNo = none) ∧
    ∀ my mn, inp.marketYes = some my → inp.marketNo = some mn →
      Kalshi.computeEdge inp =
        ⟨some (Kalshi.clamp my 0 1), some (Kalshi.clamp mn 0 1),
         some (inp.modelUp - my), some (inp.modelDown - mn)⟩ := by
  obtain ⟨mU, mD, mY, mN⟩ := inp
  constructor
  · cases mY <;> cases mN <;> simp [Kalshi.computeEdge]
  · intro my mn h1 h2
    dsimp only at h1 h2 ⊢
    subst h1 h2
    rfl

/-- C1 witness: an in-range quote pair where all four outputs are concrete. -/
theorem c1_witness :
    (⟨0.6, 0.4, some 0.3, some 0.7⟩ : Kalshi.EdgeInput).marketYes = some 0.3 ∧
    (⟨0.6, 0.4, some 0.3, some 0.7⟩ : Kalshi.EdgeInput).marketNo = some 0.7 ∧
    Kalshi.computeEdge ⟨0.6, 0.4, some 0.3, some 0.7⟩ =
      ⟨some (Kalshi.clamp 0.3 0 1), some (Kalshi.clamp 0.7 0 1),
       some ((0.6 : ℚ) - 0.3), some ((0.4 : ℚ) - 0.7)⟩ :=
  ⟨rfl, rfl, (c1_amended ⟨0.6, 0.4, some 0.3, some 0.7⟩).2 0.3 0.7 rfl rfl⟩

/-- C8: on each side of the order-book summary askLiquidity equals
bidLiquidity, both being the sum of the sizes of the first depthLevels bid
entries of that side, non-numeric sizes counting as 0. -/
theorem c8_liquidity_duplication (book : Kalshi.OrderBook) (depthLevels : ℕ) :
    ((Kalshi.summarizeOrderBook book depthLevels).yes.askLiquidity =
        (Kalshi.summarizeOrderBook book depthLevels).yes.bidLiquidity ∧
      (Kalshi.summarizeOrderBook book depthLevels).yes.bidLiquidity =
        Kalshi.sumOfFirstSizes (book.yes.getD []) depthLevels) ∧
    ((Kalshi.summarizeOrderBook book depthLevels).no.askLiquidity =
        (Kalshi.summarizeOrderBook book depthLevels).no.bidLiquidity ∧
      (Kalshi.summarizeOrderBook book depthLevels).no.bidLiquidity =
        Kalshi.sumOfFirstSizes (book.no.getD []) depthLevels) := by
  have hl : ∀ bids : List Kalshi.BookEntry,
      Kalshi.liquidityOf bids depthLevels = Kalshi.sumOfFirstSizes bids depthLevels := by
    intro bids
    unfold Kalshi.liquidityOf Kalshi.sumOfFirstSizes
    rw [Kalshi.foldl_add_eq_sum, zero_add]
  exact ⟨⟨rfl, hl _⟩, ⟨rfl, hl _⟩⟩

/-- C9 counterexample: closes has 5 entries, vwapSeries 3, lookback 3: both
length guards pass yet the loop reads vwapSeries[3] and vwapSeries[4], out
of bounds, so the in-bounds part of the claim is false. -/
theorem c9_counterexample :
    3 ≤ ([1, 2, 3, 4, 5] : List ℚ).length ∧ 3 ≤ ([0, 0, 0] : List ℚ).length ∧
    ¬ Kalshi.vwapReadsInBounds [1, 2, 3, 4, 5] [0, 0, 0] 3 := by
  refine ⟨by norm_num, by norm_num, ?_⟩
  intro h
  have h4 := h 4 (by decide)
  simpa using h4.2.2.2

/-- C9 amended: null whenever either series is shorter than lookback;
otherwise the result is an integer between 0 and lookback - 1; and every
read is in bounds provided vwapSeries is at least as long as closes. -/
theorem c9_amended (closes vwapSeries : List ℚ) (lookback : ℕ) :
    (closes.length < lookback ∨ vwapSeries.length < lookback →
      Kalshi.countVwapCrosses closes vwapSeries lookback = none) ∧
    (lookback ≤ closes.length → lookback ≤ vwapSeries.length →
      ∃ n, Kalshi.countVwapCrosses closes vwapSeries lookback = some n ∧
        n ≤ lookback - 1) ∧
    (lookback ≤ closes.length → closes.length ≤ vwapSeries.length →
      Kalshi.vwapReadsInBounds closes vwapSeries lookback) := by
  refine ⟨?_, ?_, ?_⟩
  · intro h
    unfold Kalshi.countVwapCrosses
    rw [if_pos h]
  · intro h1 h2
    unfold Kalshi.countVwapCrosses
    rw [if_neg (by omega)]
    refine ⟨_, rfl, ?_⟩
    calc (Kalshi.vwapLoopIndices closes.length lookback).countP
          (Kalshi.crossAt closes vwapSeries)
        ≤ (Kalshi.vwapLoopIndices closes.length lookback).length :=
          List.countP_le_length _
      _ = lookback - 1 := by
          unfold Kalshi.vwapLoopIndices
          rw [List.length_range']
  · intro h1 h2 i hi
    unfold Kalshi.vwapLoopIndices at hi
    rw [List.mem_range'_1] at hi
    refine ⟨by omega, by omega, by omega, by omega⟩

/-- C9 witness: a lookback-1 run on singleton series. -/
theorem c9_witness :
    (1 ≤ ([5] : List ℚ).length ∧ 1 ≤ ([3] : List ℚ).length ∧
      ∃ n, Kalshi.countVwapCrosses [5] [3] 1 = some n ∧ n ≤ 1 - 1) ∧
    Kalshi.vwapReadsInBounds [5] [3] 1 := by
  refine ⟨⟨by norm_num, by norm_num,
    (c9_amended [5] [3] 1).2.1 (by norm_num) (by norm_num)⟩,
    (c9_amended [5] [3] 1).2.2 (by norm_num) (by norm_num)⟩

/-- C10: each raw Coinbase row maps to openTime = ts * 1000 and
closeTime = (ts + granularity) * 1000 with closeTime > openTime, the
granularity always being positive, and the final reversal turns a
newest-first response into non-decreasing openTime. -/
theorem c10_klines_transform (interval : String) (data : List Kalshi.RawCandle)
    (h : List.Pairwise (fun a b => b.ts ≤ a.ts) data) :
    0 < Kalshi.granularityOf interval ∧
    (∀ c ∈ data,
      (Kalshi.toCandle (Kalshi.granularityOf interval) c).openTime = c.ts * 1000 ∧
      (Kalshi.toCandle (Kalshi.granularityOf interval) c).closeTime =
        (c.ts + (Kalshi.granularityOf interval : ℚ)) * 1000 ∧
      (Kalshi.toCandle (Kalshi.granularityOf interval) c).openTime <
        (Kalshi.toCandle (Kalshi.granularityOf interval) c).closeTime) ∧
    List.Pairwise (fun a b => a.openTime ≤ b.openTime)
      (Kalshi.fetchKlinesTransform (Kalshi.granularityOf interval) data) := by
  have hg : 0 < Kalshi.granularityOf interval := by
    simp only [Kalshi.granularityOf, Kalshi.granularityMap]
    split_ifs <;> simp [Kalshi.validGranularities]
  have hgq : (0 : ℚ) < (Kalshi.granularityOf interval : ℚ) := by exact_mod_cast hg
  refine ⟨hg, ?_, ?_⟩
  · intro c hc
    refine ⟨rfl, rfl, ?_⟩
    unfold Kalshi.toCandle
    dsimp only
    nlinarith
  · unfold Kalshi.fetchKlinesTransform
    rw [List.pairwise_reverse, List.pairwise_map]
    refine h.imp ?_
    intro a b hab
    unfold Kalshi.toCandle
    dsimp only
    nlinarith

/-- C10 witness: a concrete newest-first two-row response at interval 1m. -/
theorem c10_witness :
    List.Pairwise (fun a b : Kalshi.RawCandle => b.ts ≤ a.ts) Kalshi.sampleRawCandles ∧
    (0 < Kalshi.granularityOf "1m" ∧
     (∀ c ∈ Kalshi.sampleRawCandles,
       (Kalshi.toCandle (Kalshi.granularityOf "1m") c).openTime = c.ts * 1000 ∧
       (Kalshi.toCandle (Kalshi.granularityOf "1m") c).closeTime =
         (c.ts + (Kalshi.granularityOf "1m" : ℚ)) * 1000 ∧
       (Kalshi.toCandle (Kalshi.granularityOf "1m") c).openTime <
         (Kalshi.toCandle (Kalshi.granularityOf "1m") c).closeTime) ∧
     List.Pairwise (fun a b => a.openTime ≤ b.openTime)
       (Kalshi.fetchKlinesTransform (Kalshi.granularityOf "1m")
         Kalshi.sampleRawCandles)) := by
  have hp : List.Pairwise (fun a b : Kalshi.RawCandle => b.ts ≤ a.ts)
      Kalshi.sampleRawCandles := by
    simp [Kalshi.sampleRawCandles]
  exact ⟨hp, c10_klines_transform "1m" Kalshi.sampleRawCandles hp⟩
